import Mathlib

/-!
# Reliability-metrics engine of the Mantenimiento repository

A shallow embedding of `src/mantenimiento/utils/kpi_calculator.py`
(`KPICalculator`), together with the record shapes it reads
(`models/falla.py`, `models/orden_trabajo.py`), and proofs about it.

Modelling conventions:
* Python `datetime` values are rationals (seconds since an arbitrary epoch);
  `timedelta` arithmetic becomes rational arithmetic in seconds
  (`timedelta(days=1)` is `86400`).
* A raw ISO-8601 timestamp string is represented by its parse result
  (`DateStr := Option ℚ`): `some t` when `datetime.fromisoformat` would
  return the instant `t`, `none` when it would raise
  (`ValueError`/`TypeError`, including an explicit `None` value).
* Python dictionaries for failures and work orders become structures whose
  fields distinguish, where the code does, between a missing key, an
  explicit `None` value, and a real value (`Option (Option _)`).
* Exceptions escaping a computation are modelled with `Except Unit`.
* Python `sorted` (a stable sort) is modelled with `List.insertionSort`,
  which Mathlib implements stably.
* `float` arithmetic is modelled with exact rational arithmetic.
-/

/-- A raw timestamp string, represented by what `datetime.fromisoformat`
would make of it: `some t` if it parses to the instant `t` (in seconds),
`none` if parsing raises. -/
abbrev DateStr := Option ℚ

/-- `datetime.fromisoformat` applied to a raw timestamp string: yields the
parsed instant or raises (modelled as `Except.error ()`). -/
def fromisoformat (d : DateStr) : Except Unit ℚ :=
  match d with
  | some t => .ok t
  | none => .error ()

/-- A failure record as the engine receives it: a plain field mapping
(`fallas: List[Dict[str, Any]]`).  Outer `Option` = key present in the
dictionary; inner `Option` = value is not `None`. -/
structure FallaDict where
  estado : Option (Option String)
  fecha_reporte : Option DateStr
  tiempo_fuera_servicio_h : Option (Option ℚ)
  causa_raiz : Option (Option String)
  costo_reparacion : Option ℚ
deriving DecidableEq, Repr

/-- A work-order record as the engine receives it
(`ordenes_trabajo: List[Dict[str, Any]]`).  For the date fields the code
only distinguishes truthy values (a non-empty string) from falsy/missing
ones, so a single `Option DateStr` suffices; likewise `.get` conflates a
missing key with `None` for `tipo`, `estado` and `costo_real`. -/
structure OTDict where
  tipo : Option String
  estado : Option String
  fecha_programada : Option DateStr
  fecha_fin : Option DateStr
  costo_real : Option ℚ
deriving DecidableEq, Repr

/-- The result dictionary of `KPICalculator.calcular_kpis_activo`.
The `ultima_actualizacion` entry (`datetime.now().isoformat()`) is impure
wall-clock output and is not part of the embedded result. -/
structure KPIs where
  mtbf_horas : ℚ
  mttr_horas : ℚ
  disponibilidad : ℚ
  num_fallas : ℕ
  num_intervalos_mtbf : ℕ
  cumplimiento_preventivo : Option ℚ
  costo_total_mantenimiento : ℚ
deriving DecidableEq, Repr

/-- `KPICalculator.calcular_mtbf`: mean time between failures, in hours,
from a list of failure instants (seconds), plus the interval count. -/
def calcular_mtbf (fechas_fallas : List ℚ) : ℚ × ℕ :=
  if fechas_fallas.length < 2 then (0, 0)
  else
    let fechas_ordenadas := List.insertionSort (· ≤ ·) fechas_fallas
    let diferencias := (fechas_ordenadas.zip fechas_ordenadas.tail).map
      (fun p => (p.2 - p.1) / 3600)
    if diferencias.isEmpty then (0, 0)
    else (diferencias.sum / (diferencias.length : ℚ), diferencias.length)

/-- `KPICalculator.calcular_mttr`: mean of the repair durations, `0.0` for
an empty list. -/
def calcular_mttr (tiempos_reparacion : List ℚ) : ℚ :=
  if tiempos_reparacion.isEmpty then 0
  else tiempos_reparacion.sum / (tiempos_reparacion.length : ℚ)

/-- `KPICalculator.calcular_disponibilidad`: `mtbf / (mtbf + mttr)`, with
`0.0` when `mtbf <= 0`. -/
def calcular_disponibilidad (mtbf mttr : ℚ) : ℚ :=
  if mtbf ≤ 0 then 0
  else mtbf / (mtbf + mttr)

/-- computeMTBF as the specification words it: sort the timestamps
ascending, average the elapsed fractional hours between chronologically
consecutive pairs, and report `count(timestamps) - 1` intervals; below two
timestamps, `(0.0, 0)`. -/
def computeMTBF_spec (timestamps : List ℚ) : ℚ × ℕ :=
  if timestamps.length < 2 then (0, 0)
  else
    let sorted := List.insertionSort (· ≤ ·) timestamps
    let gaps := (sorted.zip sorted.tail).map (fun p => (p.2 - p.1) / 3600)
    (gaps.sum / ((timestamps.length - 1 : ℕ) : ℚ), timestamps.length - 1)

/-- The status filter of `calcular_kpis_activo`:
`f.get('estado') in ['Resuelta', 'Cerrada', 'COMPLETADA']`. -/
def esResueltaCerradaOCompletada (f : FallaDict) : Bool :=
  f.estado == some (some "Resuelta") || f.estado == some (some "Cerrada") ||
    f.estado == some (some "COMPLETADA")

/-- The report-timestamp extraction of `calcular_kpis_activo`:
`[datetime.fromisoformat(f['fecha_reporte']) for f in fallas_resueltas if 'fecha_reporte' in f]`.
A record whose present timestamp fails to parse raises (no handler). -/
def extraerFechas : List FallaDict → Except Unit (List ℚ)
  | [] => .ok []
  | f :: rest =>
    match f.fecha_reporte with
    | none => extraerFechas rest
    | some d =>
      match fromisoformat d with
      | .error e => .error e
      | .ok t =>
        match extraerFechas rest with
        | .error e => .error e
        | .ok ts => .ok (t :: ts)

/-- The downtime extraction of `calcular_kpis_activo`: the value of
`tiempo_fuera_servicio_h` when the key is present and not `None`. -/
def tiempoFueraServicio (f : FallaDict) : Option ℚ :=
  match f.tiempo_fuera_servicio_h with
  | some (some v) => some v
  | _ => none

/-- The work-order type filter of `calcular_kpis_activo`:
`ot.get('tipo') in ['Preventivo', 'PREVENTIVO', 'preventivo']`. -/
def esPreventivo (ot : OTDict) : Bool :=
  ot.tipo == some "Preventivo" || ot.tipo == some "PREVENTIVO" ||
    ot.tipo == some "preventivo"

/-- The `completados_a_tiempo` generator sum of `calcular_kpis_activo`:
count orders whose status is in `['Completada', 'COMPLETADA']`, whose
`fecha_fin` and `fecha_programada` are truthy, and whose parsed finish is
at most the parsed scheduled date plus one day (86400 s).  Parsing a
truthy but malformed date raises (no handler). -/
def contarATiempo : List OTDict → Except Unit ℕ
  | [] => .ok 0
  | ot :: rest =>
    if ot.estado == some "Completada" || ot.estado == some "COMPLETADA" then
      match ot.fecha_fin with
      | none => contarATiempo rest
      | some dfin =>
        match ot.fecha_programada with
        | none => contarATiempo rest
        | some dprog =>
          match fromisoformat dfin with
          | .error e => .error e
          | .ok fin =>
            match fromisoformat dprog with
            | .error e => .error e
            | .ok prog =>
              match contarATiempo rest with
              | .error e => .error e
              | .ok n => .ok ((if fin ≤ prog + 86400 then 1 else 0) + n)
    else contarATiempo rest

/-- The preventive-compliance block of `calcular_kpis_activo`:
`None` when `ordenes_trabajo` is falsy or holds no preventive order,
otherwise `(completados_a_tiempo / len(preventivos)) * 100`. -/
def calcularCumplimiento (ordenes_trabajo : Option (List OTDict)) :
    Except Unit (Option ℚ) :=
  match ordenes_trabajo with
  | none => .ok none
  | some ots =>
    if ots.isEmpty then .ok none
    else
      let preventivos := ots.filter esPreventivo
      if preventivos.isEmpty then .ok none
      else
        match contarATiempo preventivos with
        | .error e => .error e
        | .ok c => .ok (some ((c : ℚ) / (preventivos.length : ℚ) * 100))

/-- `KPICalculator.calcular_kpis_activo`: the composite KPI computation
for one asset. -/
def calcular_kpis_activo (fallas : List FallaDict)
    (ordenes_trabajo : Option (List OTDict)) : Except Unit KPIs :=
  let fallas_resueltas := fallas.filter esResueltaCerradaOCompletada
  match extraerFechas fallas_resueltas with
  | .error e => .error e
  | .ok fechas_fallas =>
    let mtbf := (calcular_mtbf fechas_fallas).1
    let num_intervalos := (calcular_mtbf fechas_fallas).2
    let tiempos_reparacion := fallas_resueltas.filterMap tiempoFueraServicio
    let mttr := if tiempos_reparacion.isEmpty then 0 else calcular_mttr tiempos_reparacion
    let disponibilidad := if 0 < mtbf then calcular_disponibilidad mtbf mttr else 1
    match calcularCumplimiento ordenes_trabajo with
    | .error e => .error e
    | .ok cumplimiento_preventivo =>
      let costo_total : ℚ :=
        match ordenes_trabajo with
        | none => 0
        | some ots => if ots.isEmpty then 0 else (ots.filterMap OTDict.costo_real).sum
      .ok { mtbf_horas := mtbf
            mttr_horas := mttr
            disponibilidad := disponibilidad
            num_fallas := fallas_resueltas.length
            num_intervalos_mtbf := num_intervalos
            cumplimiento_preventivo := cumplimiento_preventivo
            costo_total_mantenimiento := costo_total }

/-- The body of the period-filter loop of `generar_reporte_estadistico`:
a record is kept unless its `fecha_reporte` key is missing, its timestamp
fails to parse (the `ValueError`/`TypeError` handler), or the parsed
instant is strictly before `periodo_inicio` or strictly after
`periodo_fin` (each bound checked only when given; a `datetime` is always
truthy). -/
def enPeriodo (periodo_inicio periodo_fin : Option ℚ) (falla : FallaDict) : Bool :=
  match falla.fecha_reporte with
  | some (some fecha_falla) =>
    !((periodo_inicio.any fun a => decide (fecha_falla < a)) ||
      (periodo_fin.any fun b => decide (b < fecha_falla)))
  | _ => false

/-- The whole period-filter loop of `generar_reporte_estadistico`. -/
def filtrarPeriodo (fallas : List FallaDict) (periodo_inicio periodo_fin : Option ℚ) :
    List FallaDict :=
  fallas.filter (enPeriodo periodo_inicio periodo_fin)

/-- `falla.get('causa_raiz', 'No especificada')`: the default fires only
when the key is absent; an explicit `None` value is kept and becomes a
`None` dictionary key. -/
def causaKey (f : FallaDict) : Option String :=
  match f.causa_raiz with
  | none => some "No especificada"
  | some c => c

/-- `f.get('estado', 'Desconocido')` feeding the status distribution. -/
def estadoKey (f : FallaDict) : Option String :=
  match f.estado with
  | none => some "Desconocido"
  | some c => c

/-- One step of Python dictionary counting
(`causas_raiz[causa] = causas_raiz.get(causa, 0) + 1`): bump the count of
`k`, appending a fresh key at the end (insertion order preserved). -/
def bump (k : Option String) : List (Option String × ℕ) → List (Option String × ℕ)
  | [] => [(k, 1)]
  | (q, n) :: rest => if q = k then (q, n + 1) :: rest else (q, n) :: bump k rest

/-- The `causas_raiz` counting dictionary, as an association list in key
insertion order (= first-encountered order in the filtered input). -/
def contarCausas (fallas : List FallaDict) : List (Option String × ℕ) :=
  fallas.foldl (fun acc f => bump (causaKey f) acc) []

/-- The status counting behind `pd.Series(...).value_counts()`, as an
association list in first-encountered order. -/
def contarEstados (fallas : List FallaDict) : List (Option String × ℕ) :=
  fallas.foldl (fun acc f => bump (estadoKey f) acc) []

/-- The comparison of `sorted(..., key=lambda x: x[1], reverse=True)`:
count descending; the sort being stable, ties keep first-encountered
order. -/
def descPorFrecuencia (a b : Option String × ℕ) : Prop := b.2 ≤ a.2

instance : DecidableRel descPorFrecuencia := fun a b => Nat.decLe b.2 a.2

instance : IsTotal (Option String × ℕ) descPorFrecuencia := ⟨fun a b => le_total b.2 a.2⟩

instance : IsTrans (Option String × ℕ) descPorFrecuencia :=
  ⟨fun _ _ _ hab hbc => le_trans hbc hab⟩

/-- The result dictionary of `generar_reporte_estadistico`; the empty
dictionary `{}` returned on no data is modelled as `none` at the call
sites. -/
structure Reporte where
  periodo_inicio : Option ℚ
  periodo_fin : Option ℚ
  total_fallas : ℕ
  tiempo_promedio_reparacion : ℚ
  tiempo_total_fuera_servicio : ℚ
  costo_total_reparaciones : ℚ
  causas_raiz : List (Option String × ℕ)
  distribucion_por_estado : List (Option String × ℕ)
deriving DecidableEq, Repr

/-- `KPICalculator.generar_reporte_estadistico`.  The `periodo_inicio` and
`periodo_fin` entries keep the parsed instants (the code renders them with
`isoformat`).  `value_counts().head()` tie order is left unspecified by
pandas; it is modelled as first-encountered order like `causas_raiz`. -/
def generar_reporte_estadistico (fallas : List FallaDict)
    (periodo_inicio periodo_fin : Option ℚ) : Option Reporte :=
  if fallas.isEmpty then none
  else
    let fallas_filtradas :=
      if periodo_inicio.isSome || periodo_fin.isSome then
        filtrarPeriodo fallas periodo_inicio periodo_fin
      else fallas
    if fallas_filtradas.isEmpty then none
    else
      let tiempos_reparacion := fallas_filtradas.filterMap tiempoFueraServicio
      let num_fallas := fallas_filtradas.length
      let costos_reparacion := fallas_filtradas.filterMap FallaDict.costo_reparacion
      let causas_ordenadas := List.insertionSort descPorFrecuencia (contarCausas fallas_filtradas)
      some { periodo_inicio := periodo_inicio
             periodo_fin := periodo_fin
             total_fallas := num_fallas
             tiempo_promedio_reparacion :=
               if tiempos_reparacion.isEmpty then 0
               else tiempos_reparacion.sum / (tiempos_reparacion.length : ℚ)
             tiempo_total_fuera_servicio := tiempos_reparacion.sum
             costo_total_reparaciones :=
               if costos_reparacion.isEmpty then 0 else costos_reparacion.sum
             causas_raiz := causas_ordenadas.take 5
             distribucion_por_estado :=
               (List.insertionSort descPorFrecuencia (contarEstados fallas_filtradas)).take 5 }

/-- The period-filter membership as the specification words it: keep
exactly the records whose report timestamp parses and lies within the
inclusive bounds, each bound enforced only when given. -/
def perteneceAlPeriodo (periodo_inicio periodo_fin : Option ℚ) (falla : FallaDict) : Bool :=
  match falla.fecha_reporte with
  | some (some t) =>
    (match periodo_inicio with
     | some a => decide (a ≤ t)
     | none => true) &&
    (match periodo_fin with
     | some b => decide (t ≤ b)
     | none => true)
  | _ => false

/-- The on-time test for a preventive order as the specification words it:
completed, both dates present (and parseable), finish at most one day
after the scheduled date. -/
def aTiempoSpec (ot : OTDict) : Bool :=
  (ot.estado == some "Completada" || ot.estado == some "COMPLETADA") &&
  match ot.fecha_fin, ot.fecha_programada with
  | some (some fin), some (some prog) => decide (fin ≤ prog + 86400)
  | _, _ => false

/-- A failure record whose raw status string is `COMPLETADA` — not an
`EstadoFalla` value, neither `Resuelta` nor `Cerrada`. -/
def fallaCompletada : FallaDict := ⟨some (some "COMPLETADA"), none, none, none, none⟩

/-- An open failure record (status `Reportada`). -/
def fallaReportada : FallaDict := ⟨some (some "Reportada"), none, none, none, none⟩

/-- A resolved record with a parseable report timestamp and 2 h downtime. -/
def fallaResuelta : FallaDict :=
  ⟨some (some "Resuelta"), some (some 0), some (some 2), none, none⟩

/-- A resolved record whose `fecha_reporte` is present but does not parse. -/
def fallaFechaMala : FallaDict := ⟨some (some "Resuelta"), some none, none, none, none⟩

/-- An open failure reported at instant 0, outside any later period. -/
def fallaFueraDePeriodo : FallaDict :=
  ⟨some (some "Reportada"), some (some 0), none, none, none⟩

/-- A failure whose `causa_raiz` key is present with an explicit `None`. -/
def fallaCausaNula : FallaDict :=
  ⟨some (some "Reportada"), none, none, some none, none⟩

/-- Six failures with six distinct root causes, in input order. -/
def fallasCausasDistintas : List FallaDict :=
  ["A", "B", "C", "D", "E", "F"].map fun s =>
    ⟨some (some "Reportada"), none, none, some (some s), none⟩

/-- The report computed for the single open failure `fallaReportada`
(whose `causa_raiz` key is absent: sentinel bucket). -/
def reporteReportada : Reporte :=
  ⟨none, none, 1, 0, 0, 0, [(some "No especificada", 1)], [(some "Reportada", 1)]⟩

/-- Spec scenario order: preventive, completed on the scheduled day. -/
def otPreventivaATiempo : OTDict :=
  ⟨some "Preventivo", some "Completada", some (some 0), some (some 0), none⟩

/-- Spec scenario order: preventive, completed three days late. -/
def otPreventivaTarde : OTDict :=
  ⟨some "Preventivo", some "Completada", some (some 0), some (some 259200), none⟩

/-- Resolved failure at instant 0 with downtime −100 h. -/
def fallaTiempoNegativo1 : FallaDict :=
  ⟨some (some "Resuelta"), some (some 0), some (some (-100)), none, none⟩

/-- Resolved failure two hours later with downtime −100 h. -/
def fallaTiempoNegativo2 : FallaDict :=
  ⟨some (some "Resuelta"), some (some 7200), some (some (-100)), none, none⟩

theorem calcular_mtbf_length_diferencias (l : List ℚ) :
    ((List.insertionSort (· ≤ ·) l).zip (List.insertionSort (· ≤ ·) l).tail).length
      = l.length - 1 := by
  rw [List.length_zip, List.length_tail, List.length_insertionSort]
  exact Nat.min_eq_right (Nat.sub_le _ _)

/-- C2: `calcular_mtbf` coincides with the specified computeMTBF on every
input: `(0.0, 0)` below two timestamps, otherwise the mean consecutive gap
of the ascending sort with interval count `n - 1`. -/
theorem c2_mtbf_refines_spec (ts : List ℚ) :
    calcular_mtbf ts = computeMTBF_spec ts := by
  unfold calcular_mtbf computeMTBF_spec
  by_cases h : ts.length < 2
  · simp [h]
  · have hlen :
        ((List.insertionSort (· ≤ ·) ts).zip (List.insertionSort (· ≤ ·) ts).tail).length
          = ts.length - 1 := calcular_mtbf_length_diferencias ts
    have hpos : 1 ≤ ts.length - 1 := by omega
    have hne :
        (((List.insertionSort (· ≤ ·) ts).zip (List.insertionSort (· ≤ ·) ts).tail).map
          (fun p => (p.2 - p.1) / 3600)).isEmpty = false := by
      rw [List.isEmpty_eq_false_iff_exists_mem]
      have : 0 < (((List.insertionSort (· ≤ ·) ts).zip
          (List.insertionSort (· ≤ ·) ts).tail).map (fun p => (p.2 - p.1) / 3600)).length := by
        rw [List.length_map, hlen]; omega
      exact List.exists_mem_of_length_pos this
    simp only [h, if_false, hne, List.length_map, hlen, Bool.false_eq_true]

/-- C8: `calcular_disponibilidad` equals `mtbf / (mtbf + mttr)` for
`mtbf > 0`, equals `0.0` for `mtbf <= 0`, is monotonically non-decreasing
in mtbf and non-increasing in mttr on `mtbf > 0`, `mttr >= 0`. -/
theorem c8_disponibilidad_props :
    (∀ m r : ℚ, 0 < m → calcular_disponibilidad m r = m / (m + r)) ∧
    (∀ m r : ℚ, m ≤ 0 → calcular_disponibilidad m r = 0) ∧
    (∀ m₁ m₂ r : ℚ, 0 < m₁ → m₁ ≤ m₂ → 0 ≤ r →
      calcular_disponibilidad m₁ r ≤ calcular_disponibilidad m₂ r) ∧
    (∀ m r₁ r₂ : ℚ, 0 < m → 0 ≤ r₁ → r₁ ≤ r₂ →
      calcular_disponibilidad m r₂ ≤ calcular_disponibilidad m r₁) := by
  have hpos : ∀ m r : ℚ, 0 < m → calcular_disponibilidad m r = m / (m + r) := by
    intro m r hm
    unfold calcular_disponibilidad
    rw [if_neg (not_le.mpr hm)]
  refine ⟨hpos, ?_, ?_, ?_⟩
  · intro m r hm
    unfold calcular_disponibilidad
    rw [if_pos hm]
  · intro m₁ m₂ r h₁ h₁₂ hr
    have h₂ : 0 < m₂ := lt_of_lt_of_le h₁ h₁₂
    rw [hpos m₁ r h₁, hpos m₂ r h₂]
    rw [div_le_div_iff₀ (by linarith) (by linarith)]
    nlinarith
  · intro m r₁ r₂ hm hr₁ hr₁₂
    rw [hpos m r₂ hm, hpos m r₁ hm]
    exact div_le_div_of_nonneg_left hm.le (by linarith) (by linarith)

theorem c8_disponibilidad_props_witness :
    calcular_disponibilidad 2 1 = 2 / (2 + 1) ∧
    calcular_disponibilidad (-1) 5 = 0 ∧
    calcular_disponibilidad 1 1 ≤ calcular_disponibilidad 2 1 ∧
    calcular_disponibilidad 2 3 ≤ calcular_disponibilidad 2 1 :=
  ⟨c8_disponibilidad_props.1 2 1 (by norm_num),
   c8_disponibilidad_props.2.1 (-1) 5 (by norm_num),
   c8_disponibilidad_props.2.2.1 1 2 1 (by norm_num) (by norm_num) (by norm_num),
   c8_disponibilidad_props.2.2.2 2 1 3 (by norm_num) (by norm_num) (by norm_num)⟩

theorem insertionSort_perm_invariant {l l' : List ℚ} (h : l.Perm l') :
    List.insertionSort (· ≤ ·) l = List.insertionSort (· ≤ ·) l' :=
  List.eq_of_perm_of_sorted
    ((List.perm_insertionSort _ l).trans (h.trans (List.perm_insertionSort _ l').symm))
    (List.sorted_insertionSort _ l) (List.sorted_insertionSort _ l')

/-- C9: `calcular_mtbf` is invariant under permutation of its input, but a
duplicated timestamp adds a zero-length interval that changes mean and
count: `[0, 0, 7200]` (seconds) yields `(1, 2)` while `[0, 7200]` yields
`(2, 1)`. -/
theorem c9_mtbf_perm_and_duplicates :
    (∀ l l' : List ℚ, l.Perm l' → calcular_mtbf l = calcular_mtbf l') ∧
    calcular_mtbf [0, 0, 7200] ≠ calcular_mtbf [0, 7200] := by
  constructor
  · intro l l' h
    unfold calcular_mtbf
    rw [h.length_eq, insertionSort_perm_invariant h]
  · have h1 : calcular_mtbf [0, 0, 7200] = (1, 2) := by
      norm_num [calcular_mtbf, List.insertionSort, List.orderedInsert, List.zip, List.zipWith]
    have h2 : calcular_mtbf [0, 7200] = (2, 1) := by
      norm_num [calcular_mtbf, List.insertionSort, List.orderedInsert, List.zip, List.zipWith]
    rw [h1, h2]
    intro hcon
    rw [Prod.mk.injEq] at hcon
    exact absurd hcon.2 (by norm_num)

theorem c9_mtbf_perm_and_duplicates_witness :
    calcular_mtbf [0, 7200] = calcular_mtbf [7200, 0] :=
  c9_mtbf_perm_and_duplicates.1 [0, 7200] [7200, 0] (List.Perm.swap 7200 0 [])

/-- C1: refuted as stated.  A record whose status is the raw string
`COMPLETADA` — neither Resolved (`Resuelta`) nor Closed (`Cerrada`) — is
nevertheless counted: `num_fallas` is 1, not the 0 Resolved/Closed
records present. -/
theorem c1_counterexample :
    (([fallaCompletada].filter fun f =>
        f.estado == some (some "Resuelta") || f.estado == some (some "Cerrada")).length = 0) ∧
    calcular_kpis_activo [fallaCompletada] none = .ok ⟨0, 0, 1, 1, 0, none, 0⟩ := by
  exact ⟨rfl, rfl⟩

/-- C1 (amended): the MTBF/MTTR pipeline of `calcular_kpis_activo` uses
exactly the records whose status is `Resuelta`, `Cerrada` or the extra
raw spelling `COMPLETADA`: prepending a record in any other state leaves
the whole result unchanged, and `num_fallas` is the count of records
passing that three-state filter. -/
theorem c1_filtro_estados :
    (∀ (f : FallaDict) (fallas : List FallaDict) (ot : Option (List OTDict)),
      esResueltaCerradaOCompletada f = false →
      calcular_kpis_activo (f :: fallas) ot = calcular_kpis_activo fallas ot) ∧
    (∀ (fallas : List FallaDict) (ot : Option (List OTDict)) (r : KPIs),
      calcular_kpis_activo fallas ot = .ok r →
      r.num_fallas = (fallas.filter esResueltaCerradaOCompletada).length) := by
  constructor
  · intro f fallas ot hf
    unfold calcular_kpis_activo
    rw [List.filter_cons_of_neg (by simp [hf])]
  · intro fallas ot r h
    unfold calcular_kpis_activo at h
    simp only [] at h
    cases hE : extraerFechas (List.filter esResueltaCerradaOCompletada fallas) with
    | error e => rw [hE] at h; exact absurd h (by simp)
    | ok fechas =>
      rw [hE] at h
      cases hC : calcularCumplimiento ot with
      | error e => rw [hC] at h; exact absurd h (by simp)
      | ok c =>
        rw [hC] at h
        simp only [Except.ok.injEq] at h
        subst h
        rfl

theorem c1_filtro_estados_witness :
    calcular_kpis_activo [fallaReportada] none = calcular_kpis_activo [] none ∧
    (⟨0, 0, 1, 1, 0, none, 0⟩ : KPIs).num_fallas =
      ([fallaCompletada].filter esResueltaCerradaOCompletada).length :=
  ⟨c1_filtro_estados.1 fallaReportada [] none rfl,
   c1_filtro_estados.2 [fallaCompletada] none _ rfl⟩

/-- C4: `calcular_kpis_activo` on an empty failures list with no work
orders yields mtbf 0, mttr 0, availability 1, no failures, compliance
absent and zero cost; and whenever the computed MTBF is not positive the
composite reports availability 1.0 instead of calling the primitive. -/
theorem c4_kpis_vacio_y_convencion :
    calcular_kpis_activo [] none = .ok ⟨0, 0, 1, 0, 0, none, 0⟩ ∧
    (∀ (fallas : List FallaDict) (ot : Option (List OTDict)) (r : KPIs),
      calcular_kpis_activo fallas ot = .ok r → r.mtbf_horas ≤ 0 →
      r.disponibilidad = 1) := by
  constructor
  · rfl
  · intro fallas ot r h hm
    unfold calcular_kpis_activo at h
    simp only [] at h
    cases hE : extraerFechas (List.filter esResueltaCerradaOCompletada fallas) with
    | error e => rw [hE] at h; exact absurd h (by simp)
    | ok fechas =>
      rw [hE] at h
      cases hC : calcularCumplimiento ot with
      | error e => rw [hC] at h; exact absurd h (by simp)
      | ok c =>
        rw [hC] at h
        simp only [Except.ok.injEq] at h
        subst h
        simp only [KPIs.mtbf_horas] at hm
        simp only [KPIs.disponibilidad]
        rw [if_neg (not_lt.mpr hm)]

theorem c4_kpis_vacio_y_convencion_witness :
    (⟨0, 0, 1, 1, 0, none, 0⟩ : KPIs).disponibilidad = 1 :=
  c4_kpis_vacio_y_convencion.2 [fallaCompletada] none _ rfl (by norm_num)

/-- C5: refuted as stated.  One resolved record with a present but
unparseable `fecha_reporte` makes `calcular_kpis_activo` fail wholesale
(`datetime.fromisoformat` raises with no handler), although the remaining
input on its own computes fine. -/
theorem c5_counterexample :
    calcular_kpis_activo [fallaResuelta, fallaFechaMala] none = .error () ∧
    calcular_kpis_activo [fallaResuelta] none = .ok ⟨0, 2, 1, 1, 0, none, 0⟩ := by
  constructor
  · rfl
  · norm_num [calcular_kpis_activo, extraerFechas, fromisoformat, esResueltaCerradaOCompletada,
      tiempoFueraServicio, calcular_mtbf, calcular_mttr, calcular_disponibilidad,
      calcularCumplimiento, fallaResuelta, List.filter, List.filterMap]

/-- C5 (amended): `generar_reporte_estadistico` does degrade gracefully —
in a bounded query a record with a present but unparseable report
timestamp is dropped and the report of the remaining records is returned —
but `calcular_kpis_activo` propagates the parse error instead of
excluding the record. -/
theorem c5_reporte_tolerante :
    ∀ (l₁ l₂ : List FallaDict) (bad : FallaDict) (i f : Option ℚ),
      bad.fecha_reporte = some none →
      (i.isSome ∨ f.isSome) →
      generar_reporte_estadistico (l₁ ++ bad :: l₂) i f =
        generar_reporte_estadistico (l₁ ++ l₂) i f := by
  intro l₁ l₂ bad i f hbad hif
  have hb : (i.isSome || f.isSome) = true := by
    rcases hif with h | h <;> simp [h]
  have hne : (l₁ ++ bad :: l₂).isEmpty = false := by simp
  have hfilter : filtrarPeriodo (l₁ ++ bad :: l₂) i f = filtrarPeriodo (l₁ ++ l₂) i f := by
    unfold filtrarPeriodo
    rw [List.filter_append, List.filter_append,
      List.filter_cons_of_neg (by simp [enPeriodo, hbad])]
  cases hE : (l₁ ++ l₂).isEmpty with
  | true =>
    rw [List.isEmpty_iff] at hE
    rcases List.append_eq_nil.mp hE with ⟨e1, e2⟩
    subst e1; subst e2
    simp [generar_reporte_estadistico, filtrarPeriodo, enPeriodo, hbad, hb]
  | false =>
    unfold generar_reporte_estadistico
    rw [hne, hE, hb, hfilter]
    simp only [if_true, Bool.false_eq_true, if_false]

theorem c5_reporte_tolerante_witness :
    generar_reporte_estadistico [fallaResuelta, fallaFechaMala] (some 0) none =
      generar_reporte_estadistico [fallaResuelta] (some 0) none :=
  c5_reporte_tolerante [fallaResuelta] [] fallaFechaMala (some 0) none rfl (Or.inl rfl)

/-- C6: `generar_reporte_estadistico` returns the empty result on an empty
input; a bounded query filters to exactly the records whose report
timestamp parses and lies within the inclusive period bounds (open-ended
where a bound is missing, missing/unparseable timestamps silently
dropped); and when no record survives a bounded filter the result is
empty. -/
theorem c6_reporte_filtro :
    (∀ i f : Option ℚ, generar_reporte_estadistico [] i f = none) ∧
    (∀ (fallas : List FallaDict) (i f : Option ℚ),
      filtrarPeriodo fallas i f = fallas.filter (perteneceAlPeriodo i f)) ∧
    (∀ (fallas : List FallaDict) (i f : Option ℚ),
      (i.isSome ∨ f.isSome) → fallas.filter (perteneceAlPeriodo i f) = [] →
      generar_reporte_estadistico fallas i f = none) := by
  have hfe : ∀ (fallas : List FallaDict) (i f : Option ℚ),
      filtrarPeriodo fallas i f = fallas.filter (perteneceAlPeriodo i f) := by
    intro fallas i f
    unfold filtrarPeriodo
    apply List.filter_congr
    intro falla _
    unfold enPeriodo perteneceAlPeriodo
    cases hfr : falla.fecha_reporte with
    | none => rfl
    | some d =>
      cases d with
      | none => rfl
      | some t =>
        cases i <;> cases f <;>
          simp [Option.any, Bool.not_or, ← decide_not, not_lt]
  refine ⟨fun i f => rfl, hfe, ?_⟩
  intro fallas i f hif hempty
  have hb : (i.isSome || f.isSome) = true := by
    rcases hif with h | h <;> simp [h]
  have hfil : filtrarPeriodo fallas i f = [] := by rw [hfe fallas i f, hempty]
  unfold generar_reporte_estadistico
  rw [hb, hfil]
  simp

theorem c6_reporte_filtro_witness :
    generar_reporte_estadistico [fallaFueraDePeriodo] (some 10) none = none :=
  c6_reporte_filtro.2.2 [fallaFueraDePeriodo] (some 10) none (Or.inl rfl) rfl

/-- C7: refuted as stated.  A record with an explicit `None` root cause —
a record without a root cause, and exactly what `Falla.to_dict` emits for
an unset `causa_raiz` — is counted under a `None` dictionary key, not
under the sentinel `'No especificada'` bucket (the `.get` default fires
only when the key is absent). -/
theorem c7_counterexample :
    (generar_reporte_estadistico [fallaCausaNula] none none).map Reporte.causas_raiz =
      some [(none, 1)] ∧
    fallaCausaNula.causa_raiz = some none ∧
    (none : Option String) ≠ some "No especificada" := by
  refine ⟨rfl, rfl, by simp⟩

/-- C7 (amended): the root-cause table of any produced report has at most
5 entries and is ordered by descending count, ties resolved by
first-encountered order (the sort is stable); a record whose mapping
lacks the `causa_raiz` key is counted under the sentinel
`'No especificada'`, while an explicit `None` root cause forms its own
`None` bucket.  Concretely, six distinct first-encountered causes keep
the first five in encounter order. -/
theorem c7_causas_top5 :
    (∀ (fallas : List FallaDict) (i f : Option ℚ) (rep : Reporte),
      generar_reporte_estadistico fallas i f = some rep →
      rep.causas_raiz.length ≤ 5 ∧ rep.causas_raiz.Pairwise descPorFrecuencia) ∧
    (generar_reporte_estadistico fallasCausasDistintas none none).map Reporte.causas_raiz =
      some [(some "A", 1), (some "B", 1), (some "C", 1), (some "D", 1), (some "E", 1)] := by
  constructor
  · intro fallas i f rep h
    unfold generar_reporte_estadistico at h
    split at h
    · simp at h
    · simp only [] at h
      repeat' split at h
      all_goals simp only [Option.some.injEq, reduceCtorEq] at h
      all_goals
        (subst h
         exact ⟨List.length_take_le 5 _,
           List.Pairwise.sublist (List.take_sublist 5 _)
             (List.sorted_insertionSort descPorFrecuencia _)⟩)
  · rfl

theorem c7_causas_top5_witness :
    reporteReportada.causas_raiz.length ≤ 5 ∧
    reporteReportada.causas_raiz.Pairwise descPorFrecuencia :=
  c7_causas_top5.1 [fallaReportada] none none reporteReportada rfl

theorem contarATiempo_ok : ∀ (l : List OTDict) (c : ℕ),
    contarATiempo l = .ok c → c = l.countP aTiempoSpec := by
  intro l
  induction l with
  | nil =>
    intro c h
    simp only [contarATiempo, Except.ok.injEq] at h
    simp [← h]
  | cons ot rest ih =>
    obtain ⟨tipo, estado, oprog, ofin, costo⟩ := ot
    intro c h
    rw [List.countP_cons]
    cases ofin with
    | none =>
      simp only [contarATiempo, ite_self] at h
      simp [aTiempoSpec, ih c h]
    | some dfin =>
      by_cases hest : (estado == some "Completada" || estado == some "COMPLETADA") = true
      · cases oprog with
        | none =>
          simp only [contarATiempo, ite_self] at h
          simp [aTiempoSpec, ih c h]
        | some dprog =>
          cases dfin with
          | none => simp [contarATiempo, hest, fromisoformat] at h
          | some fin =>
            cases dprog with
            | none => simp [contarATiempo, hest, fromisoformat] at h
            | some prog =>
              simp only [contarATiempo, hest, if_true, fromisoformat] at h
              cases hrec : contarATiempo rest with
              | error e => rw [hrec] at h; exact absurd h (by simp)
              | ok n =>
                rw [hrec] at h
                simp only [Except.ok.injEq] at h
                subst h
                rw [← ih n hrec]
                simp only [aTiempoSpec, hest, Bool.true_and]
                by_cases hle : fin ≤ prog + 86400 <;> simp [hle, Nat.add_comm]
      · simp only [contarATiempo, hest, Bool.false_eq_true, if_false] at h
        simp [aTiempoSpec, hest, ih c h]

/-- C3: in every successful KPI computation supplied with work orders, a
preventive order counts as on time exactly when it is completed with both
dates present and finish ≤ scheduled + 1 day (`aTiempoSpec`); compliance
is `(on-time / total preventive) * 100`, always within `[0, 100]`, and is
absent (`None`) when there is no preventive order. -/
theorem c3_cumplimiento_preventivo :
    ∀ (fallas : List FallaDict) (ots : List OTDict) (r : KPIs),
      calcular_kpis_activo fallas (some ots) = .ok r →
      ((ots.filter esPreventivo ≠ [] →
          r.cumplimiento_preventivo =
            some (((ots.filter esPreventivo).countP aTiempoSpec : ℚ) /
              ((ots.filter esPreventivo).length : ℚ) * 100)) ∧
       (∀ c : ℚ, r.cumplimiento_preventivo = some c → 0 ≤ c ∧ c ≤ 100) ∧
       (ots.filter esPreventivo = [] → r.cumplimiento_preventivo = none)) := by
  intro fallas ots r h
  unfold calcular_kpis_activo at h
  simp only [] at h
  cases hE : extraerFechas (List.filter esResueltaCerradaOCompletada fallas) with
  | error e => rw [hE] at h; exact absurd h (by simp)
  | ok fechas =>
    rw [hE] at h
    cases hC : calcularCumplimiento (some ots) with
    | error e => rw [hC] at h; exact absurd h (by simp)
    | ok copt =>
      rw [hC] at h
      simp only [Except.ok.injEq] at h
      subst h
      simp only [KPIs.cumplimiento_preventivo]
      simp only [calcularCumplimiento] at hC
      cases hoe : ots.isEmpty with
      | true =>
        rw [List.isEmpty_iff] at hoe
        subst hoe
        simp only [List.isEmpty_nil, if_true, Except.ok.injEq] at hC
        subst hC
        exact ⟨fun hne => absurd rfl hne, fun c hc => by simp at hc, fun _ => rfl⟩
      | false =>
        rw [hoe] at hC
        simp only [Bool.false_eq_true, if_false] at hC
        cases hpe : (ots.filter esPreventivo).isEmpty with
        | true =>
          rw [hpe] at hC
          simp only [if_true, Except.ok.injEq] at hC
          subst hC
          rw [List.isEmpty_iff] at hpe
          exact ⟨fun hne => absurd hpe hne, fun c hc => by simp at hc, fun _ => rfl⟩
        | false =>
          rw [hpe] at hC
          simp only [Bool.false_eq_true, if_false] at hC
          cases hct : contarATiempo (ots.filter esPreventivo) with
          | error e => rw [hct] at hC; exact absurd hC (by simp)
          | ok n =>
            rw [hct] at hC
            simp only [Except.ok.injEq] at hC
            subst hC
            have hcount := contarATiempo_ok _ n hct
            subst hcount
            have hlenpos : 0 < (ots.filter esPreventivo).length := by
              rw [List.isEmpty_eq_false_iff_exists_mem] at hpe
              exact List.length_pos.mpr (by rcases hpe with ⟨x, hx⟩; exact fun h0 => by simp [h0] at hx)
            refine ⟨fun _ => rfl, ?_, ?_⟩
            · intro c hc
              simp only [Option.some.injEq] at hc
              subst hc
              have hqpos : (0 : ℚ) < ((ots.filter esPreventivo).length : ℚ) := by
                exact_mod_cast hlenpos
              have hcle : ((ots.filter esPreventivo).countP aTiempoSpec : ℚ) ≤
                  ((ots.filter esPreventivo).length : ℚ) := by
                exact_mod_cast List.countP_le_length _
              have h1 : ((ots.filter esPreventivo).countP aTiempoSpec : ℚ) /
                  ((ots.filter esPreventivo).length : ℚ) ≤ 1 := by
                rw [div_le_one hqpos]
                exact hcle
              have h0 : (0 : ℚ) ≤ ((ots.filter esPreventivo).countP aTiempoSpec : ℚ) /
                  ((ots.filter esPreventivo).length : ℚ) := by positivity
              constructor
              · positivity
              · nlinarith
            · intro hnil
              rw [List.isEmpty_eq_false_iff_exists_mem] at hpe
              rcases hpe with ⟨x, hx⟩
              simp [hnil] at hx

theorem c3_cumplimiento_preventivo_witness :
    (⟨0, 0, 1, 0, 0, some 50, 0⟩ : KPIs).cumplimiento_preventivo =
      some ((([otPreventivaATiempo, otPreventivaTarde].filter esPreventivo).countP
          aTiempoSpec : ℚ) /
        (([otPreventivaATiempo, otPreventivaTarde].filter esPreventivo).length : ℚ) * 100) :=
  (c3_cumplimiento_preventivo [] [otPreventivaATiempo, otPreventivaTarde]
    ⟨0, 0, 1, 0, 0, some 50, 0⟩
    (by norm_num [calcular_kpis_activo, extraerFechas, calcularCumplimiento, contarATiempo,
      fromisoformat, esPreventivo, otPreventivaATiempo, otPreventivaTarde, calcular_mtbf,
      calcular_mttr, calcular_disponibilidad, List.filter, List.filterMap])).1
    (by simp [esPreventivo, otPreventivaATiempo, otPreventivaTarde, List.filter])

/-- C10: refuted as stated.  Nothing validates downtime values: with two
resolved failures two hours apart and downtime −100 h each, MTBF = 2 > 0,
MTTR = −100, and the composite reports availability 2/(2 − 100) = −1/49,
which is not greater than 0. -/
theorem c10_counterexample :
    calcular_kpis_activo [fallaTiempoNegativo1, fallaTiempoNegativo2] none =
      .ok ⟨2, -100, -(1/49), 2, 1, none, 0⟩ ∧
    (-(1/49) : ℚ) < 0 := by
  constructor
  · norm_num [calcular_kpis_activo, extraerFechas, fromisoformat, esResueltaCerradaOCompletada,
      tiempoFueraServicio, calcular_mtbf, calcular_mttr, calcular_disponibilidad,
      calcularCumplimiento, fallaTiempoNegativo1, fallaTiempoNegativo2,
      List.insertionSort, List.orderedInsert, List.zip, List.zipWith, List.filter,
      List.filterMap]
  · norm_num

theorem calcular_mttr_nonneg (l : List ℚ) (h : ∀ v ∈ l, 0 ≤ v) :
    0 ≤ calcular_mttr l := by
  unfold calcular_mttr
  split
  · exact le_refl 0
  · exact div_nonneg (List.sum_nonneg h) (by positivity)

theorem tiempos_extraidos_nonneg (fallas : List FallaDict)
    (h : ∀ f ∈ fallas, ∀ v : ℚ, f.tiempo_fuera_servicio_h = some (some v) → 0 ≤ v) :
    ∀ v ∈ (fallas.filter esResueltaCerradaOCompletada).filterMap tiempoFueraServicio,
      0 ≤ v := by
  intro v hv
  rw [List.mem_filterMap] at hv
  rcases hv with ⟨f, hf, hfv⟩
  rw [List.mem_filter] at hf
  refine h f hf.1 v ?_
  unfold tiempoFueraServicio at hfv
  cases hts : f.tiempo_fuera_servicio_h with
  | none => rw [hts] at hfv; simp at hfv
  | some o =>
    cases o with
    | none => rw [hts] at hfv; simp at hfv
    | some w =>
      rw [hts] at hfv
      simp only [Option.some.injEq] at hfv
      rw [hfv]

/-- C10 (amended): whenever every present downtime value is non-negative,
the availability reported by `calcular_kpis_activo` lies in `(0, 1]` —
either the 1.0 convention applies, or `mtbf/(mtbf+mttr)` with positive
mtbf and non-negative mttr; with negative downtimes (which nothing
forbids) it can be negative. -/
theorem c10_disponibilidad_rango :
    ∀ (fallas : List FallaDict) (ot : Option (List OTDict)) (r : KPIs),
      calcular_kpis_activo fallas ot = .ok r →
      (∀ f ∈ fallas, ∀ v : ℚ, f.tiempo_fuera_servicio_h = some (some v) → 0 ≤ v) →
      0 < r.disponibilidad ∧ r.disponibilidad ≤ 1 := by
  intro fallas ot r h hnn
  unfold calcular_kpis_activo at h
  simp only [] at h
  cases hE : extraerFechas (List.filter esResueltaCerradaOCompletada fallas) with
  | error e => rw [hE] at h; exact absurd h (by simp)
  | ok fechas =>
    rw [hE] at h
    cases hC : calcularCumplimiento ot with
    | error e => rw [hC] at h; exact absurd h (by simp)
    | ok copt =>
      rw [hC] at h
      simp only [Except.ok.injEq] at h
      subst h
      simp only [KPIs.disponibilidad]
      by_cases hpos : 0 < (calcular_mtbf fechas).1
      · rw [if_pos hpos]
        have hmttr : 0 ≤ (if ((fallas.filter esResueltaCerradaOCompletada).filterMap
            tiempoFueraServicio).isEmpty then (0 : ℚ)
            else calcular_mttr ((fallas.filter esResueltaCerradaOCompletada).filterMap
              tiempoFueraServicio)) := by
          split
          · exact le_refl 0
          · exact calcular_mttr_nonneg _ (tiempos_extraidos_nonneg fallas hnn)
        unfold calcular_disponibilidad
        rw [if_neg (not_le.mpr hpos)]
        constructor
        · exact div_pos hpos (by linarith)
        · rw [div_le_one (by linarith)]
          linarith
      · rw [if_neg hpos]
        norm_num

theorem c10_disponibilidad_rango_witness :
    0 < (⟨0, 0, 1, 0, 0, none, 0⟩ : KPIs).disponibilidad ∧
      (⟨0, 0, 1, 0, 0, none, 0⟩ : KPIs).disponibilidad ≤ 1 :=
  c10_disponibilidad_rango [] none _ rfl
    (fun f hf => absurd hf (List.not_mem_nil f))
